import Mathlib

/-!
Shallow embedding of the `observer` repository's core:
`Storage` (src/observer/storage/storage.py) and `BaseTask` (src/observer/task.py).

StorageLocation backends are external collaborators; a location is modelled by
the path it denotes (equality in the source is by referenced path, not object
identity), and the filesystem is modelled as the list of paths that exist.
Stateful Python methods become Lean functions from the old state to the new
state; `sys.exit` / `raise` become explicit outcome values.
-/

namespace Observer

/-- A `StorageLocation`: a backend handle to one filesystem path, modelled by
its path segments.  Equality is by denoted path, as in the source. -/
structure StorageLocation where
  path : List String
deriving DecidableEq, Repr

/-- The filesystem: the set of paths that currently exist, as a list. -/
abbrev FS := List StorageLocation

/-- Source `loc.name`: the final path component. -/
def StorageLocation.name (l : StorageLocation) : String :=
  l.path.getLastD ""

/-- Source `join_loc`: path join, appending one component (`as_dir` only affects
directory typing in the source and is not modelled). -/
def StorageLocation.join_loc (l : StorageLocation) (sub : String) : StorageLocation :=
  ⟨l.path ++ [sub]⟩

/-- Source `loc.exists()` / `loc.is_file()` against a filesystem state. -/
def StorageLocation.existsIn (l : StorageLocation) (fs : FS) : Bool :=
  decide (l ∈ fs)

/-- Source `StorageConfig`: the immutable bundle of locations used to construct a
`Storage` (external collaborator; fields as recognized by `Storage.__init__`). -/
structure StorageConfig where
  base_loc : StorageLocation
  data_loc : StorageLocation
  tmp_loc : StorageLocation
  mutex_loc : StorageLocation
  archive_loc : StorageLocation
  archive_files : List StorageLocation
  required_files : List StorageLocation
  halt_files : List StorageLocation
deriving DecidableEq, Repr

/-- The `Storage` object state: one field per Python instance attribute.
`mutex_file` is `Option` because `__init__` sets `self._mutex_file = None`;
`report_dir` is `Option` because `__init__` never assigns `self._report_dir`
(reading it then raises `AttributeError`, modelled as `none`). -/
structure Storage where
  date_postfix_fmt : String
  report_date_str : String
  job_desc : String
  base_loc : StorageLocation
  data_loc : StorageLocation
  tmp_loc : StorageLocation
  mutex_loc : StorageLocation
  mutex_file : Option StorageLocation
  archive_loc : StorageLocation
  archive_file : StorageLocation
  report_dir : Option StorageLocation
  archive_files : List StorageLocation
  required_files : List StorageLocation
  halt_files : List StorageLocation
deriving DecidableEq, Repr

/-- Source `gen_location_ref(storage_loc, suffix, name_prefix)`: returns
`storage_loc.join_loc(f'{name_prefix}_{report_date_str}.{suffix}')`, the
prefix defaulting to `job_desc` when `None`. -/
def Storage.gen_location_ref (s : Storage) (storage_loc : StorageLocation)
    (suffix : String) (name_pfx : Option String) : StorageLocation :=
  let np := name_pfx.getD s.job_desc
  storage_loc.join_loc (np ++ "_" ++ s.report_date_str ++ "." ++ suffix)

/-- Source `Storage.__init__`: the date-format and date-string property setters run
first (`report_date_str = strftime(date_postfix_fmt, report_date)`); the five
location attributes are assigned directly from the config (not through their
property setters, so no dated sub-path is joined here); `_mutex_file` is set
to `None`; `_archive_file` is generated from `archive_loc` with the
`job_desc` prefix; `_report_dir` is never assigned.  `strftime` is the
external `datetime.strftime`, abstracted as a function argument; the run
date is an abstract value (`Nat`). -/
def Storage.init (strftime : String → Nat → String) (cfg : StorageConfig)
    (report_date : Nat) (date_postfix_fmt : String) (job_desc : String) : Storage :=
  let rds := strftime date_postfix_fmt report_date
  { date_postfix_fmt := date_postfix_fmt
    report_date_str := rds
    job_desc := job_desc
    base_loc := cfg.base_loc
    data_loc := cfg.data_loc
    tmp_loc := cfg.tmp_loc
    mutex_loc := cfg.mutex_loc
    mutex_file := none
    archive_loc := cfg.archive_loc
    archive_file := cfg.archive_loc.join_loc (job_desc ++ "_" ++ rds ++ ".tar.bz2")
    report_dir := none
    archive_files := cfg.archive_files
    required_files := cfg.required_files
    halt_files := cfg.halt_files }

/-- The `report_loc` property getter: returns `self._report_dir`; when that
attribute was never assigned, Python raises `AttributeError`. -/
def Storage.report_loc (s : Storage) : Except String StorageLocation :=
  match s.report_dir with
  | some l => Except.ok l
  | none => Except.error "AttributeError"

/-- The `report_date_str` property setter: formats the given datetime with the
currently stored postfix format (the datetime itself is not stored). -/
def Storage.set_report_date_str (s : Storage) (strftime : String → Nat → String)
    (date_time : Nat) : Storage :=
  { s with report_date_str := strftime s.date_postfix_fmt date_time }

/-- The `date_postfix_fmt` property setter: validates the new format by
formatting `datetime.now()` with it (a pure test in this model), then stores
it.  No other attribute is touched. -/
def Storage.set_date_postfix_fmt (s : Storage) (new_fmt : String) : Storage :=
  { s with date_postfix_fmt := new_fmt }

/-- The `job_desc` property setter: stores the new description.  No other
attribute is touched. -/
def Storage.set_job_desc (s : Storage) (new_desc : String) : Storage :=
  { s with job_desc := new_desc }

/-- The `archive_file` property setter: regenerates the archive file reference
from the current `archive_loc` with suffix `tar.bz2` and the given prefix. -/
def Storage.set_archive_file (s : Storage) (name_pfx : String) : Storage :=
  { s with archive_file := s.gen_location_ref s.archive_loc "tar.bz2" (some name_pfx) }

/-- The `mutex` property setter: regenerates the mutex file reference from the
current `mutex_loc` with suffix `mutex` and the given prefix. -/
def Storage.set_mutex (s : Storage) (name_pfx : String) : Storage :=
  { s with mutex_file := some (s.gen_location_ref s.mutex_loc "mutex" (some name_pfx)) }

/-- Source `__get_stem_prefix`: `loc.name.split('.')[0].replace(report_date_str, '')`. -/
def Storage.get_stem_pfx (s : Storage) (loc : StorageLocation) : String :=
  ((loc.name.splitOn ".").headD "").replace s.report_date_str ""

/-- The `data_loc` property setter: joins the dated `data_` sub-path. -/
def Storage.set_data_loc (s : Storage) (new_loc : StorageLocation) : Storage :=
  { s with data_loc := new_loc.join_loc ("data_" ++ s.report_date_str) }

/-- The `report_loc` property setter: joins the dated `reports_` sub-path. -/
def Storage.set_report_loc (s : Storage) (new_loc : StorageLocation) : Storage :=
  { s with report_dir := some (new_loc.join_loc ("reports_" ++ s.report_date_str)) }

/-- The `archive_loc` property setter: joins the dated `archive_` sub-path and
then regenerates `archive_file` with the existing stem prefix. -/
def Storage.set_archive_loc (s : Storage) (new_loc : StorageLocation) : Storage :=
  let s1 := { s with archive_loc := new_loc.join_loc ("archive_" ++ s.report_date_str) }
  s1.set_archive_file (s1.get_stem_pfx s1.archive_file)

/-- Source `__search_storage_group`: first index whose entry equals the object,
`-1` when absent (linear search by location equality). -/
def search_storage_group (stor_list : List StorageLocation)
    (stor_obj : StorageLocation) : Int :=
  match stor_list with
  | [] => -1
  | a :: rest =>
    if a = stor_obj then 0
    else
      let r := search_storage_group rest stor_obj
      if r = -1 then -1 else r + 1

/-- Source `__add_to_group`: warn (second component `true`) and leave the list alone
when the location is already a member, else append it. -/
def add_to_group (stor_list : List StorageLocation) (new_loc : StorageLocation) :
    List StorageLocation × Bool :=
  if search_storage_group stor_list new_loc ≠ -1 then (stor_list, true)
  else (stor_list ++ [new_loc], false)

/-- Source `__delete_from_group`: warn (second component `true`) and leave the list
alone when the location is absent, else pop it at its index. -/
def delete_from_group (stor_list : List StorageLocation) (bye_loc : StorageLocation) :
    List StorageLocation × Bool :=
  let index := search_storage_group stor_list bye_loc
  if index = -1 then (stor_list, true)
  else (stor_list.eraseIdx index.toNat, false)

/-- The loop of `check_required_files`: iterates the whole list, collecting a
warning for each missing entry (in iteration order) and a pass flag that ends
up false whenever some entry is missing. -/
def check_required_files_loop (fs : FS) :
    List StorageLocation → Bool × List StorageLocation
  | [] => (true, [])
  | f :: rest =>
    let r := check_required_files_loop fs rest
    if f.existsIn fs then r else (false, f :: r.snd)

/-- Source `check_required_files`: returns the pass flag; the logged list of missing
required files is carried alongside. -/
def Storage.check_required_files (s : Storage) (fs : FS) : Bool × List StorageLocation :=
  check_required_files_loop fs s.required_files

/-- The loop of `check_archive_files`: returns `False` at the first missing
file, `True` when all exist. -/
def check_archive_files_loop (fs : FS) : List StorageLocation → Bool
  | [] => true
  | f :: rest => if f.existsIn fs then check_archive_files_loop fs rest else false

/-- Result of `create_archive`: the raised error if any, the filesystem after
the call, and the tar entry names written (final path components only). -/
structure ArchiveResult where
  error : Option String
  fs : FS
  entries : List String
deriving DecidableEq, Repr

/-- Source `create_archive(archive_files, archive_loc, cleanup)`: resolve defaults;
raise `RuntimeError` before anything is written when `check_archive_files`
fails; otherwise build the tar at `{tmp}/{target.name}_tmp.tar.bz2` (the
`tmp_loc` is taken local-backed; each entry is the source's final path
component, via its archive-ready reference), move it onto the target, and
delete the sources if `cleanup`. -/
def Storage.create_archive (s : Storage) (fs : FS)
    (archive_files_arg : Option (List StorageLocation))
    (archive_loc_arg : Option StorageLocation) (cleanup : Bool) : ArchiveResult :=
  let archive_files := archive_files_arg.getD s.archive_files
  let archive_loc := archive_loc_arg.getD s.archive_file
  if !(check_archive_files_loop fs archive_files) then
    { error := some "Not all archive files exist, cannot create archive"
      fs := fs, entries := [] }
  else
    let tmp_archive_file := s.tmp_loc.join_loc (archive_loc.name ++ "_tmp.tar.bz2")
    let entries := archive_files.map (fun f => f.name)
    let fs1 := tmp_archive_file :: fs
    let fs2 := archive_loc :: fs1.erase tmp_archive_file
    let fs3 := if cleanup then archive_files.foldl (fun acc f => acc.erase f) fs2 else fs2
    { error := none, fs := fs3, entries := entries }

/-- Source `create_mutex`: `self.mutex.create()`; dereferencing a `None` mutex raises
`AttributeError`. -/
def Storage.create_mutex (s : Storage) (fs : FS) : Except String FS :=
  match s.mutex_file with
  | none => Except.error "AttributeError"
  | some m => Except.ok (m :: fs)

/-- Outcome of `_exit_code(interactive, code)`: `sys.exit(code)` when not
interactive, else `raise RuntimeError("Cannot run!")`. -/
inductive ExitOutcome where
  | exited (code : Nat)
  | raised (msg : String)
deriving DecidableEq, Repr

/-- Source `_exit_code`: quick exit function for tasks. -/
def exit_code_fn (interactive : Bool) (code : Nat) : ExitOutcome :=
  if !interactive then ExitOutcome.exited code
  else ExitOutcome.raised "Cannot run!"

/-- The `BaseTask` object state: one field per Python instance attribute
relevant to the run-condition machine (loggers are not modelled). -/
structure BaseTask where
  task_name : String
  task_type : String
  storage : Storage
  job_run_check : Bool
  interactive : Bool
  override : Bool
  has_mutex : Bool
  has_archive : Bool
deriving DecidableEq, Repr

/-- Source `name.lower().replace(' ', '_')` as applied by `BaseTask.__init__`. -/
def py_ident (raw : String) : String :=
  raw.toLower.replace " " "_"

/-- Source `BaseTask.__init__` (storage and flags; logger wiring not modelled). -/
def BaseTask.init (task_type task_name : String)
    (has_mutex has_archive override : Bool) (storage : Storage)
    (interactive : Bool) : BaseTask :=
  { task_name := py_ident task_name
    task_type := py_ident task_type
    storage := storage
    job_run_check := false
    interactive := interactive
    override := override
    has_mutex := has_mutex
    has_archive := has_archive }

/-- Source `_check_condition_run`: raises unless the job-run-check latch is set. -/
def BaseTask.check_condition_run (t : BaseTask) : Except String Unit :=
  if !t.job_run_check then Except.error "Has not passed job conditions check yet"
  else Except.ok ()

/-- Observable steps of `check_run_conditions`, in execution order. -/
inductive GateEvent where
  | checkedArchive
  | rotatedArchive
  | checkedHalt (loc : StorageLocation)
  | checkedRequired
  | checkedMutex
  | setLatch
  | createdMutex
deriving DecidableEq, Repr

/-- How `check_run_conditions` terminated: fell through the whole gate,
halted by `_exit_code` with the logged reason, or raised (`AttributeError`
from `None.create()`). -/
inductive GateOutcome where
  | passed
  | halted (reason : String) (outcome : ExitOutcome)
  | errored (msg : String)
deriving DecidableEq, Repr

/-- Result of a `check_run_conditions` call: the step trace, the termination,
and the task and filesystem after the call. -/
structure GateResult where
  events : List GateEvent
  outcome : GateOutcome
  task : BaseTask
  fs : FS
deriving DecidableEq, Repr

/-- The stop-file loop of `check_run_conditions`: checks each halt file in
order, stopping at the first that exists; returns the checks performed and
the found stop file, if any. -/
def halt_scan (fs : FS) : List StorageLocation → List GateEvent × Option StorageLocation
  | [] => ([], none)
  | h :: rest =>
    if h.existsIn fs then ([GateEvent.checkedHalt h], some h)
    else
      let r := halt_scan fs rest
      (GateEvent.checkedHalt h :: r.fst, r.snd)

/-- The first two statements of `check_run_conditions`: bind `storage.mutex`
to the task name when `has_mutex`, then `storage.archive_file` likewise when
`has_archive`. -/
def BaseTask.bind_refs (t0 : BaseTask) : BaseTask :=
  let t1 := if t0.has_mutex
    then { t0 with storage := t0.storage.set_mutex t0.task_name } else t0
  if t1.has_archive
    then { t1 with storage := t1.storage.set_archive_file t1.task_name } else t1

/-- The tail of `check_run_conditions` after the archive-file step, over the
filesystem `fs1` and events `evs1` the archive step produced: halt at the
first existing stop file; halt when `check_required_files` fails; halt when
the mutex file exists; otherwise set the latch and create the mutex file
(which raises `AttributeError` when the mutex reference is still `None`). -/
def BaseTask.gate_tail (t : BaseTask) (fs1 : FS) (evs1 : List GateEvent) : GateResult :=
  let hevs := (halt_scan fs1 t.storage.halt_files).fst
  match (halt_scan fs1 t.storage.halt_files).snd with
  | some _ =>
    { events := evs1 ++ hevs
      outcome := GateOutcome.halted "STOP_FILE_FOUND" (exit_code_fn t.interactive 0)
      task := t, fs := fs1 }
  | none =>
    if !(t.storage.check_required_files fs1).fst then
      { events := evs1 ++ hevs ++ [GateEvent.checkedRequired]
        outcome := GateOutcome.halted "DEP_FILES_MISSING" (exit_code_fn t.interactive 0)
        task := t, fs := fs1 }
    else
      let mutexFound := match t.storage.mutex_file with
        | some m => m.existsIn fs1
        | none => false
      if mutexFound then
        { events := evs1 ++ hevs ++ [GateEvent.checkedRequired, GateEvent.checkedMutex]
          outcome := GateOutcome.halted "MUTEX_FOUND" (exit_code_fn t.interactive 0)
          task := t, fs := fs1 }
      else
        let t2 := { t with job_run_check := true }
        match t.storage.mutex_file with
        | none =>
          { events := evs1 ++ hevs ++ [GateEvent.checkedRequired,
              GateEvent.checkedMutex, GateEvent.setLatch]
            outcome := GateOutcome.errored "AttributeError"
            task := t2, fs := fs1 }
        | some m =>
          { events := evs1 ++ hevs ++ [GateEvent.checkedRequired,
              GateEvent.checkedMutex, GateEvent.setLatch, GateEvent.createdMutex]
            outcome := GateOutcome.passed
            task := t2, fs := m :: fs1 }

/-- Source `check_run_conditions(override)`: bind references; halt when the archive
file exists without override (rotate it aside with override, modelled as the
archive path ceasing to exist); then run the rest of the gate. -/
def BaseTask.check_run_conditions (t0 : BaseTask) (fs : FS) (override : Bool) :
    GateResult :=
  let t := t0.bind_refs
  let afExists := t.storage.archive_file.existsIn fs
  if afExists && !override then
    { events := [GateEvent.checkedArchive]
      outcome := GateOutcome.halted "ARCHIVE_FILE_FOUND" (exit_code_fn t.interactive 0)
      task := t, fs := fs }
  else
    t.gate_tail (if afExists then fs.erase t.storage.archive_file else fs)
      (if afExists then [GateEvent.checkedArchive, GateEvent.rotatedArchive]
        else [GateEvent.checkedArchive])

/-- How `_prep_run` terminated. -/
inductive RunOutcome where
  | returned
  | exited (code : Nat)
  | raised (msg : String)
deriving DecidableEq, Repr

/-- Result of a `_prep_run` call: whether `main` was invoked, the error
messages logged, and the termination. -/
structure PrepResult where
  main_invoked : Bool
  logged : List String
  outcome : RunOutcome
deriving DecidableEq, Repr

/-- Source `_prep_run`: installs the queue logging handler (not modelled) and calls
`self.main(*args, **kwargs)` unconditionally — there is no latch check; an
exception from `main` (abstracted as the `Except` argument) is logged and
routed to `_exit_code(interactive, 1)`. -/
def BaseTask.prep_run (t : BaseTask) (main_result : Except String Unit) : PrepResult :=
  match main_result with
  | Except.ok _ => { main_invoked := true, logged := [], outcome := RunOutcome.returned }
  | Except.error excep =>
    { main_invoked := true
      logged := [excep]
      outcome := match exit_code_fn t.interactive 1 with
        | ExitOutcome.exited c => RunOutcome.exited c
        | ExitOutcome.raised m => RunOutcome.raised m }

/-! ### Helper lemmas -/

theorem check_required_files_loop_spec (fs : FS) (l : List StorageLocation) :
    (check_required_files_loop fs l).fst = l.all (fun f => f.existsIn fs) ∧
    (check_required_files_loop fs l).snd = l.filter (fun f => !f.existsIn fs) := by
  induction l with
  | nil => exact ⟨rfl, rfl⟩
  | cons f rest ih =>
    simp only [check_required_files_loop, List.all_cons, List.filter_cons]
    cases hf : f.existsIn fs <;> simp [hf, ih.1, ih.2]

theorem check_archive_files_loop_eq_false (fs : FS) (l : List StorageLocation)
    (f : StorageLocation) (hmem : f ∈ l) (hmiss : f.existsIn fs = false) :
    check_archive_files_loop fs l = false := by
  induction l with
  | nil => cases hmem
  | cons a rest ih =>
    simp only [check_archive_files_loop]
    rcases List.mem_cons.mp hmem with h | h
    · subst h; simp [hmiss]
    · cases ha : a.existsIn fs <;> simp [ha, ih h]

theorem search_eq_neg_one_of_not_mem (l : List StorageLocation)
    (x : StorageLocation) (h : x ∉ l) : search_storage_group l x = -1 := by
  induction l with
  | nil => rfl
  | cons a rest ih =>
    rw [List.mem_cons, not_or] at h
    have hax : ¬ a = x := fun e => h.1 e.symm
    simp [search_storage_group, hax, ih h.2]

theorem search_nonneg_of_mem (l : List StorageLocation) (x : StorageLocation)
    (h : x ∈ l) : 0 ≤ search_storage_group l x := by
  induction l with
  | nil => cases h
  | cons a rest ih =>
    simp only [search_storage_group]
    by_cases hax : a = x
    · simp [hax]
    · rw [if_neg hax]
      rcases List.mem_cons.mp h with he | hm
      · exact absurd he.symm hax
      · have h2 := ih hm
        by_cases hr : search_storage_group rest x = -1
        · rw [hr] at h2; omega
        · rw [if_neg hr]; omega

theorem search_append_singleton (l : List StorageLocation) (x : StorageLocation)
    (h : x ∉ l) : search_storage_group (l ++ [x]) x = (l.length : Int) := by
  induction l with
  | nil => simp [search_storage_group]
  | cons a rest ih =>
    rw [List.mem_cons, not_or] at h
    have hax : ¬ a = x := fun e => h.1 e.symm
    simp only [List.cons_append, search_storage_group, hax, if_false, List.append_eq]
    rw [ih h.2]
    have hne : ((rest.length : Int)) ≠ -1 := by omega
    rw [if_neg hne]
    simp only [List.length_cons]
    push_cast
    ring

theorem eraseIdx_append_length (l : List StorageLocation) (x : StorageLocation) :
    (l ++ [x]).eraseIdx l.length = l := by
  induction l with
  | nil => rfl
  | cons a rest ih =>
    simp only [List.cons_append, List.length_cons, List.eraseIdx, List.append_eq]
    rw [ih]

theorem halt_scan_fst_of_none (fs : FS) (l : List StorageLocation)
    (h : (halt_scan fs l).snd = none) :
    (halt_scan fs l).fst = l.map GateEvent.checkedHalt := by
  induction l with
  | nil => rfl
  | cons a rest ih =>
    simp only [halt_scan] at h ⊢
    cases ha : a.existsIn fs
    · rw [ha] at h
      simp only [Bool.false_eq_true, if_false] at h ⊢
      simp only [List.map_cons, List.cons.injEq, true_and]
      exact ih h
    · rw [ha] at h
      simp at h

theorem halt_scan_events_shape (fs : FS) (l : List StorageLocation) (e : GateEvent)
    (h : e ∈ (halt_scan fs l).fst) : ∃ x, e = GateEvent.checkedHalt x := by
  induction l with
  | nil => cases h
  | cons a rest ih =>
    simp only [halt_scan] at h
    cases ha : a.existsIn fs
    · rw [ha] at h
      simp only [Bool.false_eq_true, if_false] at h
      rcases List.mem_cons.mp h with he | hm
      · exact ⟨a, he⟩
      · exact ih hm
    · rw [ha] at h
      simp only [if_true] at h
      rcases List.mem_cons.mp h with he | hm
      · exact ⟨a, he⟩
      · cases hm

theorem bind_refs_job_run_check (t0 : BaseTask) :
    t0.bind_refs.job_run_check = t0.job_run_check := by
  simp only [BaseTask.bind_refs]
  split <;> split <;> rfl

theorem bind_refs_interactive (t0 : BaseTask) :
    t0.bind_refs.interactive = t0.interactive := by
  simp only [BaseTask.bind_refs]
  split <;> split <;> rfl

/-! ### Concrete fixtures for witnesses and counterexamples -/

/-- A concrete abstract `strftime`: tags the format with the date value. -/
def strf0 : String → Nat → String := fun f d => f ++ "#" ++ toString d

/-- A concrete storage configuration. -/
def cfg0 : StorageConfig :=
  { base_loc := ⟨["base"]⟩, data_loc := ⟨["data"]⟩, tmp_loc := ⟨["tmp"]⟩
    mutex_loc := ⟨["mux"]⟩, archive_loc := ⟨["arch"]⟩
    archive_files := [], required_files := [], halt_files := [] }

/-- A concrete freshly constructed `Storage`. -/
def s0 : Storage := Storage.init strf0 cfg0 5 "fmtA" "job"

/-! ### Claims -/

/-- Claim C3 (code bug): the `report_loc` getter on a freshly constructed
`Storage` fails (the source's `__init__` never assigns `self._report_dir`,
so Python raises `AttributeError`), and the base, data and archive locations
are taken verbatim from the configuration rather than joined with a dated
sub-path at construction time. -/
theorem claim_C3_report_loc_unset (strftime : String → Nat → String)
    (cfg : StorageConfig) (report_date : Nat) (fmt jd : String) :
    (Storage.init strftime cfg report_date fmt jd).report_loc
        = Except.error "AttributeError" ∧
    (Storage.init strftime cfg report_date fmt jd).data_loc = cfg.data_loc ∧
    (Storage.init strftime cfg report_date fmt jd).archive_loc = cfg.archive_loc ∧
    (Storage.init strftime cfg report_date fmt jd).base_loc = cfg.base_loc :=
  ⟨rfl, rfl, rfl, rfl⟩

/-- Claim C4 counterexample: at a concrete `Storage` built with format
`fmtA` and run date `5`, assigning the new format `fmtB` leaves
`report_date_str` at its old value instead of re-deriving it with the new
format, contradicting the claim as stated. -/
theorem claim_C4_counterexample :
    ¬ ((s0.set_date_postfix_fmt "fmtB").report_date_str = strf0 "fmtB" 5) := by
  decide

/-- Claim C4 (amended): assigning `date_postfix_fmt` stores the new format but
does not recompute `report_date_str` (the run date is not stored, so it
cannot); the stored `report_date_str` is unchanged until the run date is next
assigned, at which point the new format is used. -/
theorem claim_C4_fmt_setter (s : Storage) (new_fmt : String)
    (strftime : String → Nat → String) (dt : Nat) :
    (s.set_date_postfix_fmt new_fmt).report_date_str = s.report_date_str ∧
    (s.set_date_postfix_fmt new_fmt).date_postfix_fmt = new_fmt ∧
    ((s.set_date_postfix_fmt new_fmt).set_report_date_str strftime dt).report_date_str
      = strftime new_fmt dt :=
  ⟨rfl, rfl, rfl⟩

/-- Claim C5 counterexample: at a concrete `Storage` with a bound mutex,
assigning a different `job_desc` leaves the derived `archive_file` name and
the mutex reference exactly as they were, contradicting the claim that the
setter changes them before returning. -/
theorem claim_C5_counterexample :
    ((s0.set_mutex "job").set_job_desc "different").archive_file.name
        = (s0.set_mutex "job").archive_file.name ∧
    ((s0.set_mutex "job").set_job_desc "different").mutex_file
        = (s0.set_mutex "job").mutex_file ∧
    ¬ ("different" = (s0.set_mutex "job").job_desc) := by
  refine ⟨rfl, rfl, ?_⟩
  decide

/-- Claim C5 (amended): the `job_desc` setter stores the new description and
touches nothing else: `archive_file`, `mutex`, `archive_loc` and `mutex_loc`
all keep their current values; the new description only affects locations
generated afterwards with the default name prefix. -/
theorem claim_C5_job_desc_setter (s : Storage) (new_desc : String) :
    (s.set_job_desc new_desc).archive_file = s.archive_file ∧
    (s.set_job_desc new_desc).mutex_file = s.mutex_file ∧
    (s.set_job_desc new_desc).archive_loc = s.archive_loc ∧
    (s.set_job_desc new_desc).mutex_loc = s.mutex_loc ∧
    (s.set_job_desc new_desc).job_desc = new_desc ∧
    ∀ loc suffix,
      (s.set_job_desc new_desc).gen_location_ref loc suffix none
        = loc.join_loc (new_desc ++ "_" ++ s.report_date_str ++ "." ++ suffix) :=
  ⟨rfl, rfl, rfl, rfl, rfl, fun _ _ => rfl⟩

/-- Claim C7: `check_required_files` iterates the whole required group without
short-circuiting: the pass flag is true exactly when every entry exists, and
the warnings logged are exactly the missing entries, each one individually,
in group order. -/
theorem claim_C7_check_required_files (s : Storage) (fs : FS) :
    ((s.check_required_files fs).fst = true ↔
      ∀ f ∈ s.required_files, f.existsIn fs = true) ∧
    (s.check_required_files fs).snd
      = s.required_files.filter (fun f => !f.existsIn fs) := by
  have h := check_required_files_loop_spec fs s.required_files
  refine ⟨?_, h.2⟩
  rw [Storage.check_required_files, h.1, List.all_eq_true]

/-- Claim C6: `create_archive` raises the integrity error and stops before
writing anything whenever some declared archive source is missing: the
`RuntimeError` is raised, the filesystem is untouched (so nothing, partial
or complete, appears at the final target path), and no tar entry is
written. -/
theorem claim_C6_create_archive (s : Storage) (fs : FS)
    (files : Option (List StorageLocation)) (target : Option StorageLocation)
    (cleanup : Bool) (f : StorageLocation)
    (hmem : f ∈ files.getD s.archive_files) (hmiss : f.existsIn fs = false) :
    (s.create_archive fs files target cleanup).error
        = some "Not all archive files exist, cannot create archive" ∧
    (s.create_archive fs files target cleanup).fs = fs ∧
    (s.create_archive fs files target cleanup).entries = [] := by
  have h := check_archive_files_loop_eq_false fs (files.getD s.archive_files) f hmem hmiss
  simp [Storage.create_archive, h]

/-- Witness for C6 at a concrete input: one declared source that does not
exist on an empty filesystem. -/
theorem claim_C6_create_archive_witness :
    ((⟨["missing"]⟩ : StorageLocation)
        ∈ (some [(⟨["missing"]⟩ : StorageLocation)]).getD s0.archive_files) ∧
    (StorageLocation.existsIn ⟨["missing"]⟩ ([] : FS)) = false ∧
    (s0.create_archive [] (some [⟨["missing"]⟩]) none false).error
      = some "Not all archive files exist, cannot create archive" :=
  ⟨by decide, by decide,
    (claim_C6_create_archive s0 [] (some [⟨["missing"]⟩]) none false ⟨["missing"]⟩
      (by decide) (by decide)).1⟩

/-- Claim C8 counterexample: when `x` is already a member, `add` (a warned
no-op) followed by `delete` removes the pre-existing copy, so the original
list is not restored — refuting the unconditional roundtrip claim. -/
theorem claim_C8_counterexample :
    ¬ ((delete_from_group
          (add_to_group [(⟨["x"]⟩ : StorageLocation)] ⟨["x"]⟩).fst ⟨["x"]⟩).fst
        = [(⟨["x"]⟩ : StorageLocation)]) := by
  decide

/-- Claim C8 (amended): when `x` is not already a member, `add` then `delete`
restores the original list exactly; a second `add` of the same `x` warns and
leaves the list unchanged with exactly one copy of `x`; `add` of an existing
member warns without mutation; `delete` of a non-member warns without
mutation; and both operations preserve duplicate-freedom. -/
theorem claim_C8_group_ops (l : List StorageLocation) (x : StorageLocation) :
    (x ∉ l →
      (delete_from_group (add_to_group l x).fst x).fst = l ∧
      add_to_group (add_to_group l x).fst x = ((add_to_group l x).fst, true) ∧
      ((add_to_group l x).fst).count x = 1 ∧
      delete_from_group l x = (l, true)) ∧
    (x ∈ l → add_to_group l x = (l, true)) ∧
    (l.Nodup → (add_to_group l x).fst.Nodup ∧ (delete_from_group l x).fst.Nodup) := by
  have hmem_add : x ∈ l → add_to_group l x = (l, true) := by
    intro h
    have h0 := search_nonneg_of_mem l x h
    have hne : search_storage_group l x ≠ -1 := by omega
    rw [add_to_group, if_pos hne]
  refine ⟨?_, hmem_add, ?_⟩
  · intro h
    have hsearch := search_eq_neg_one_of_not_mem l x h
    have hadd : add_to_group l x = (l ++ [x], false) := by
      rw [add_to_group, if_neg]
      simp [hsearch]
    have hsearch2 := search_append_singleton l x h
    have hne2 : search_storage_group (l ++ [x]) x ≠ -1 := by
      rw [hsearch2]; omega
    refine ⟨?_, ?_, ?_, ?_⟩
    · rw [hadd]
      rw [delete_from_group, if_neg hne2, hsearch2]
      simp only [Int.toNat_ofNat]
      exact eraseIdx_append_length l x
    · rw [hadd]
      rw [add_to_group, if_pos hne2]
    · rw [hadd]
      simp only [List.count_append, List.count_singleton_self,
        List.count_eq_zero.mpr h]
    · rw [delete_from_group, if_pos hsearch]
  · intro hn
    constructor
    · by_cases hx : x ∈ l
      · rw [hmem_add hx]; exact hn
      · have hsearch := search_eq_neg_one_of_not_mem l x hx
        rw [add_to_group, if_neg]
        · refine List.nodup_append.mpr ⟨hn, List.nodup_singleton x, ?_⟩
          intro a hal hax
          rw [List.mem_singleton] at hax
          exact hx (hax ▸ hal)
        · simp [hsearch]
    · rw [delete_from_group]
      split
      · exact hn
      · exact (List.eraseIdx_sublist _ _).nodup hn

/-- Witness for C8 at concrete inputs: the non-member, member and
duplicate-freedom hypotheses discharged on small lists. -/
theorem claim_C8_group_ops_witness :
    ((⟨["x"]⟩ : StorageLocation) ∉ ([] : List StorageLocation)) ∧
    (delete_from_group (add_to_group [] ⟨["x"]⟩).fst ⟨["x"]⟩).fst = [] ∧
    ((⟨["x"]⟩ : StorageLocation) ∈ [(⟨["x"]⟩ : StorageLocation)]) ∧
    add_to_group [(⟨["x"]⟩ : StorageLocation)] ⟨["x"]⟩
      = ([(⟨["x"]⟩ : StorageLocation)], true) ∧
    ([] : List StorageLocation).Nodup ∧
    (add_to_group [] ⟨["x"]⟩).fst.Nodup :=
  ⟨by decide,
   ((claim_C8_group_ops [] ⟨["x"]⟩).1 (by decide)).1,
   by decide,
   (claim_C8_group_ops [(⟨["x"]⟩ : StorageLocation)] ⟨["x"]⟩).2.1 (by decide),
   List.nodup_nil,
   ((claim_C8_group_ops [] ⟨["x"]⟩).2.2 List.nodup_nil).1⟩

theorem halt_scan_no_latch (fs : FS) (l : List StorageLocation) :
    GateEvent.setLatch ∉ (halt_scan fs l).fst ∧
    GateEvent.createdMutex ∉ (halt_scan fs l).fst := by
  constructor <;> intro hmem <;>
    rcases halt_scan_events_shape fs l _ hmem with ⟨x, hx⟩ <;> cases hx

/-- A concrete task whose gate passes on an empty filesystem. -/
def taskPass : BaseTask :=
  { task_name := "t", task_type := "g", storage := s0, job_run_check := false
    interactive := false, override := false, has_mutex := true, has_archive := true }

/-- A concrete storage with one halt file declared. -/
def sStop : Storage := { s0 with halt_files := [⟨["stop"]⟩] }

/-- A concrete task halted by its halt file. -/
def taskStop : BaseTask :=
  { task_name := "t", task_type := "g", storage := sStop, job_run_check := false
    interactive := false, override := false, has_mutex := true, has_archive := true }

/-- A concrete filesystem on which the halt file exists. -/
def fsStop : FS := [⟨["stop"]⟩]

/-- Claim C1: the gate runs its checks in the fixed order — archive file,
then each halt file, then the required files, then the mutex — and on a
successful pass the latch is set with the mutex creation as the final step
(the full, ordered event trace is given); on any halting check the latch is
left untouched, no latch or mutex-creation step occurs, and nothing is
created on the filesystem. -/
theorem gate_tail_eq_stop (t : BaseTask) (fs1 : FS) (evs1 : List GateEvent)
    (x : StorageLocation) (hh : (halt_scan fs1 t.storage.halt_files).snd = some x) :
    t.gate_tail fs1 evs1 =
      { events := evs1 ++ (halt_scan fs1 t.storage.halt_files).fst
        outcome := GateOutcome.halted "STOP_FILE_FOUND" (exit_code_fn t.interactive 0)
        task := t, fs := fs1 } := by
  simp [BaseTask.gate_tail, hh]

theorem gate_tail_eq_dep (t : BaseTask) (fs1 : FS) (evs1 : List GateEvent)
    (hh : (halt_scan fs1 t.storage.halt_files).snd = none)
    (hr : (t.storage.check_required_files fs1).fst = false) :
    t.gate_tail fs1 evs1 =
      { events := evs1 ++ (halt_scan fs1 t.storage.halt_files).fst
          ++ [GateEvent.checkedRequired]
        outcome := GateOutcome.halted "DEP_FILES_MISSING" (exit_code_fn t.interactive 0)
        task := t, fs := fs1 } := by
  simp [BaseTask.gate_tail, hh, hr]

theorem gate_tail_eq_mutex_found (t : BaseTask) (fs1 : FS) (evs1 : List GateEvent)
    (m : StorageLocation)
    (hh : (halt_scan fs1 t.storage.halt_files).snd = none)
    (hr : (t.storage.check_required_files fs1).fst = true)
    (hm : t.storage.mutex_file = some m) (hme : m.existsIn fs1 = true) :
    t.gate_tail fs1 evs1 =
      { events := evs1 ++ (halt_scan fs1 t.storage.halt_files).fst
          ++ [GateEvent.checkedRequired, GateEvent.checkedMutex]
        outcome := GateOutcome.halted "MUTEX_FOUND" (exit_code_fn t.interactive 0)
        task := t, fs := fs1 } := by
  simp [BaseTask.gate_tail, hh, hr, hm, hme]

theorem gate_tail_eq_attr_error (t : BaseTask) (fs1 : FS) (evs1 : List GateEvent)
    (hh : (halt_scan fs1 t.storage.halt_files).snd = none)
    (hr : (t.storage.check_required_files fs1).fst = true)
    (hm : t.storage.mutex_file = none) :
    t.gate_tail fs1 evs1 =
      { events := evs1 ++ (halt_scan fs1 t.storage.halt_files).fst
          ++ [GateEvent.checkedRequired, GateEvent.checkedMutex, GateEvent.setLatch]
        outcome := GateOutcome.errored "AttributeError"
        task := { t with job_run_check := true }, fs := fs1 } := by
  simp [BaseTask.gate_tail, hh, hr, hm]

theorem gate_tail_eq_passed (t : BaseTask) (fs1 : FS) (evs1 : List GateEvent)
    (m : StorageLocation)
    (hh : (halt_scan fs1 t.storage.halt_files).snd = none)
    (hr : (t.storage.check_required_files fs1).fst = true)
    (hm : t.storage.mutex_file = some m) (hme : m.existsIn fs1 = false) :
    t.gate_tail fs1 evs1 =
      { events := evs1 ++ (halt_scan fs1 t.storage.halt_files).fst
          ++ [GateEvent.checkedRequired, GateEvent.checkedMutex,
              GateEvent.setLatch, GateEvent.createdMutex]
        outcome := GateOutcome.passed
        task := { t with job_run_check := true }, fs := m :: fs1 } := by
  simp [BaseTask.gate_tail, hh, hr, hm, hme]

theorem gate_tail_halted (t : BaseTask) (fs1 : FS) (evs1 : List GateEvent)
    (reason : String) (o : ExitOutcome)
    (h : (t.gate_tail fs1 evs1).outcome = GateOutcome.halted reason o) :
    (t.gate_tail fs1 evs1).task = t ∧
    o = exit_code_fn t.interactive 0 ∧
    (t.gate_tail fs1 evs1).fs = fs1 ∧
    (GateEvent.setLatch ∉ evs1 → GateEvent.setLatch ∉ (t.gate_tail fs1 evs1).events) ∧
    (GateEvent.createdMutex ∉ evs1 →
      GateEvent.createdMutex ∉ (t.gate_tail fs1 evs1).events) := by
  cases hh : (halt_scan fs1 t.storage.halt_files).snd with
  | some x =>
    rw [gate_tail_eq_stop t fs1 evs1 x hh] at h ⊢
    dsimp at h ⊢
    injection h with h1 h2
    refine ⟨rfl, h2.symm, rfl, ?_, ?_⟩ <;> intro hni hmem <;>
      rcases List.mem_append.mp hmem with hm1 | hm2
    · exact hni hm1
    · rcases halt_scan_events_shape _ _ _ hm2 with ⟨y, hy⟩; cases hy
    · exact hni hm1
    · rcases halt_scan_events_shape _ _ _ hm2 with ⟨y, hy⟩; cases hy
  | none =>
    cases hr : (t.storage.check_required_files fs1).fst with
    | false =>
      rw [gate_tail_eq_dep t fs1 evs1 hh hr] at h ⊢
      dsimp at h ⊢
      injection h with h1 h2
      refine ⟨rfl, h2.symm, rfl, ?_, ?_⟩ <;> intro hni hmem <;>
        rcases List.mem_append.mp hmem with hm0 | hm3
      · rcases List.mem_append.mp hm0 with hm1 | hm2
        · exact hni hm1
        · rcases halt_scan_events_shape _ _ _ hm2 with ⟨y, hy⟩; cases hy
      · simp at hm3
      · rcases List.mem_append.mp hm0 with hm1 | hm2
        · exact hni hm1
        · rcases halt_scan_events_shape _ _ _ hm2 with ⟨y, hy⟩; cases hy
      · simp at hm3
    | true =>
      cases hm : t.storage.mutex_file with
      | none =>
        rw [gate_tail_eq_attr_error t fs1 evs1 hh hr hm] at h
        dsimp at h
        cases h
      | some m =>
        cases hme : m.existsIn fs1 with
        | false =>
          rw [gate_tail_eq_passed t fs1 evs1 m hh hr hm hme] at h
          dsimp at h
          cases h
        | true =>
          rw [gate_tail_eq_mutex_found t fs1 evs1 m hh hr hm hme] at h ⊢
          dsimp at h ⊢
          injection h with h1 h2
          refine ⟨rfl, h2.symm, rfl, ?_, ?_⟩ <;> intro hni hmem <;>
            rcases List.mem_append.mp hmem with hm0 | hm3
          · rcases List.mem_append.mp hm0 with hm1 | hm2
            · exact hni hm1
            · rcases halt_scan_events_shape _ _ _ hm2 with ⟨y, hy⟩; cases hy
          · simp at hm3
          · rcases List.mem_append.mp hm0 with hm1 | hm2
            · exact hni hm1
            · rcases halt_scan_events_shape _ _ _ hm2 with ⟨y, hy⟩; cases hy
          · simp at hm3

theorem gate_tail_passed (t : BaseTask) (fs1 : FS) (evs1 : List GateEvent)
    (h : (t.gate_tail fs1 evs1).outcome = GateOutcome.passed) :
    (t.gate_tail fs1 evs1).task.job_run_check = true ∧
    (t.gate_tail fs1 evs1).events
      = evs1 ++ t.storage.halt_files.map GateEvent.checkedHalt
        ++ [GateEvent.checkedRequired, GateEvent.checkedMutex,
            GateEvent.setLatch, GateEvent.createdMutex] := by
  cases hh : (halt_scan fs1 t.storage.halt_files).snd with
  | some x =>
    rw [gate_tail_eq_stop t fs1 evs1 x hh] at h
    dsimp at h; cases h
  | none =>
    cases hr : (t.storage.check_required_files fs1).fst with
    | false =>
      rw [gate_tail_eq_dep t fs1 evs1 hh hr] at h
      dsimp at h; cases h
    | true =>
      cases hm : t.storage.mutex_file with
      | none =>
        rw [gate_tail_eq_attr_error t fs1 evs1 hh hr hm] at h
        dsimp at h; cases h
      | some m =>
        cases hme : m.existsIn fs1 with
        | true =>
          rw [gate_tail_eq_mutex_found t fs1 evs1 m hh hr hm hme] at h
          dsimp at h; cases h
        | false =>
          rw [gate_tail_eq_passed t fs1 evs1 m hh hr hm hme]
          exact ⟨rfl, by rw [halt_scan_fst_of_none _ _ hh]⟩

theorem check_run_conditions_eq_halt_archive (t0 : BaseTask) (fs : FS)
    (override : Bool)
    (hb : (t0.bind_refs.storage.archive_file.existsIn fs && !override) = true) :
    t0.check_run_conditions fs override =
      { events := [GateEvent.checkedArchive]
        outcome := GateOutcome.halted "ARCHIVE_FILE_FOUND"
          (exit_code_fn t0.bind_refs.interactive 0)
        task := t0.bind_refs, fs := fs } := by
  simp [BaseTask.check_run_conditions, hb]

theorem check_run_conditions_eq_tail (t0 : BaseTask) (fs : FS) (override : Bool)
    (hb : (t0.bind_refs.storage.archive_file.existsIn fs && !override) = false) :
    t0.check_run_conditions fs override =
      t0.bind_refs.gate_tail
        (if t0.bind_refs.storage.archive_file.existsIn fs
          then fs.erase t0.bind_refs.storage.archive_file else fs)
        (if t0.bind_refs.storage.archive_file.existsIn fs
          then [GateEvent.checkedArchive, GateEvent.rotatedArchive]
          else [GateEvent.checkedArchive]) := by
  simp [BaseTask.check_run_conditions, hb]

/-- Claim C1: the gate runs its checks in the fixed order — archive file,
then each halt file, then the required files, then the mutex — and on a
successful pass the latch is set with the mutex creation as the final step
(the full, ordered event trace is given); on any halting check the latch is
left untouched, no latch or mutex-creation step occurs, and nothing is
created on the filesystem. -/
theorem claim_C1_gate_order (t0 : BaseTask) (fs : FS) (override : Bool) :
    (∀ reason o,
      (t0.check_run_conditions fs override).outcome = GateOutcome.halted reason o →
      (t0.check_run_conditions fs override).task.job_run_check = t0.job_run_check ∧
      GateEvent.setLatch ∉ (t0.check_run_conditions fs override).events ∧
      GateEvent.createdMutex ∉ (t0.check_run_conditions fs override).events ∧
      ∀ l ∈ (t0.check_run_conditions fs override).fs, l ∈ fs) ∧
    ((t0.check_run_conditions fs override).outcome = GateOutcome.passed →
      (t0.check_run_conditions fs override).task.job_run_check = true ∧
      (t0.check_run_conditions fs override).events =
        (if t0.bind_refs.storage.archive_file.existsIn fs
            then [GateEvent.checkedArchive, GateEvent.rotatedArchive]
            else [GateEvent.checkedArchive])
          ++ t0.bind_refs.storage.halt_files.map GateEvent.checkedHalt
          ++ [GateEvent.checkedRequired, GateEvent.checkedMutex,
              GateEvent.setLatch, GateEvent.createdMutex]) := by
  cases hb : t0.bind_refs.storage.archive_file.existsIn fs && !override with
  | true =>
    rw [check_run_conditions_eq_halt_archive t0 fs override hb]
    constructor
    · intro reason o _
      exact ⟨bind_refs_job_run_check t0, by simp, by simp, fun l hl => hl⟩
    · intro hpass; dsimp at hpass; cases hpass
  | false =>
    rw [check_run_conditions_eq_tail t0 fs override hb]
    constructor
    · intro reason o h
      obtain ⟨htask, ho, hfs, hlatch, hmux⟩ := gate_tail_halted _ _ _ _ _ h
      refine ⟨?_, ?_, ?_, ?_⟩
      · rw [htask]; exact bind_refs_job_run_check t0
      · exact hlatch (by split <;> simp)
      · exact hmux (by split <;> simp)
      · rw [hfs]
        intro l hl
        split at hl
        · exact List.erase_subset _ _ hl
        · exact hl
    · intro hpass
      obtain ⟨hj, hev⟩ := gate_tail_passed _ _ _ hpass
      exact ⟨hj, hev⟩


/-- Witness for C1: a concrete passing gate and a concrete halted gate. -/
theorem claim_C1_gate_order_witness :
    ((taskPass.check_run_conditions [] false).outcome = GateOutcome.passed ∧
      (taskPass.check_run_conditions [] false).task.job_run_check = true) ∧
    ((taskStop.check_run_conditions fsStop false).outcome
        = GateOutcome.halted "STOP_FILE_FOUND" (ExitOutcome.exited 0) ∧
      GateEvent.createdMutex ∉ (taskStop.check_run_conditions fsStop false).events) :=
  ⟨⟨by decide, ((claim_C1_gate_order taskPass [] false).2 (by decide)).1⟩,
   ⟨by decide, ((claim_C1_gate_order taskStop fsStop false).1 "STOP_FILE_FOUND"
      (ExitOutcome.exited 0) (by decide)).2.2.1⟩⟩

/-- Claim C2 counterexample: on a concrete task whose gate has not been
passed (`job_run_check = false`), `_prep_run` still invokes the work
function and returns normally — no error is raised at the boundary,
refuting the claim as stated. -/
theorem claim_C2_counterexample :
    taskPass.job_run_check = false ∧
    (taskPass.prep_run (Except.ok ())).main_invoked = true ∧
    (taskPass.prep_run (Except.ok ())).outcome = RunOutcome.returned :=
  ⟨rfl, rfl, rfl⟩

/-- Claim C2 (amended): the guard `_check_condition_run` does raise when the
latch is unset, but `_prep_run` never calls it: `_prep_run` invokes the work
function regardless of the latch. -/
theorem claim_C2_no_latch_guard (t : BaseTask) (h : t.job_run_check = false)
    (main_result : Except String Unit) :
    t.check_condition_run = Except.error "Has not passed job conditions check yet" ∧
    (t.prep_run main_result).main_invoked = true := by
  constructor
  · simp [BaseTask.check_condition_run, h]
  · cases main_result <;> rfl

/-- Witness for C2 (amended) at a concrete unlatched task. -/
theorem claim_C2_no_latch_guard_witness :
    taskPass.job_run_check = false ∧
    taskPass.check_condition_run
      = Except.error "Has not passed job conditions check yet" ∧
    (taskPass.prep_run (Except.error "boom")).main_invoked = true :=
  ⟨rfl, (claim_C2_no_latch_guard taskPass rfl (Except.error "boom")).1,
   (claim_C2_no_latch_guard taskPass rfl (Except.error "boom")).2⟩

/-- Claim C9: every halting outcome of the gate carries
`_exit_code(interactive, 0)` — process exit 0 when non-interactive, a raised
`RuntimeError` when interactive — and a work-function exception is caught at
the `_prep_run` boundary, logged, and converted to exit code 1 when
non-interactive or re-raised when interactive. -/
theorem claim_C9_exit_codes (t0 : BaseTask) (fs : FS) (override : Bool)
    (reason : String) (o : ExitOutcome) (msg : String)
    (h : (t0.check_run_conditions fs override).outcome = GateOutcome.halted reason o) :
    o = exit_code_fn t0.interactive 0 ∧
    (t0.interactive = false → o = ExitOutcome.exited 0) ∧
    (t0.interactive = true → o = ExitOutcome.raised "Cannot run!") ∧
    (t0.prep_run (Except.error msg)).main_invoked = true ∧
    (t0.prep_run (Except.error msg)).logged = [msg] ∧
    (t0.interactive = false →
      (t0.prep_run (Except.error msg)).outcome = RunOutcome.exited 1) ∧
    (t0.interactive = true →
      (t0.prep_run (Except.error msg)).outcome = RunOutcome.raised "Cannot run!") := by
  have ho : o = exit_code_fn t0.interactive 0 := by
    rw [← bind_refs_interactive t0]
    cases hb : t0.bind_refs.storage.archive_file.existsIn fs && !override with
    | true =>
      rw [check_run_conditions_eq_halt_archive t0 fs override hb] at h
      dsimp at h
      injection h with h1 h2
      exact h2.symm
    | false =>
      rw [check_run_conditions_eq_tail t0 fs override hb] at h
      exact (gate_tail_halted _ _ _ _ _ h).2.1
  refine ⟨ho, ?_, ?_, rfl, rfl, ?_, ?_⟩
  · intro hi; rw [ho, hi]; rfl
  · intro hi; rw [ho, hi]; rfl
  · intro hi; simp [BaseTask.prep_run, exit_code_fn, hi]
  · intro hi; simp [BaseTask.prep_run, exit_code_fn, hi]

/-- Witness for C9: the concrete halted gate of `taskStop`. -/
theorem claim_C9_exit_codes_witness :
    (taskStop.check_run_conditions fsStop false).outcome
        = GateOutcome.halted "STOP_FILE_FOUND" (ExitOutcome.exited 0) ∧
    ExitOutcome.exited 0 = exit_code_fn taskStop.interactive 0 ∧
    (taskStop.prep_run (Except.error "boom")).logged = ["boom"] :=
  ⟨by decide,
   (claim_C9_exit_codes taskStop fsStop false "STOP_FILE_FOUND"
      (ExitOutcome.exited 0) "boom" (by decide)).1,
   (claim_C9_exit_codes taskStop fsStop false "STOP_FILE_FOUND"
      (ExitOutcome.exited 0) "boom" (by decide)).2.2.2.2.1⟩

/-- Claim C10: with `has_mutex = false` the mutex reference keeps its initial
`None` from `Storage.__init__`; when every gating check passes, the gate sets
the latch and then crashes with `AttributeError` at the unconditional
`self.storage.mutex.create()` — the latch is already true, no mutex-creation
step happens, and the filesystem is untouched. -/
theorem claim_C10_none_mutex_crash (t0 : BaseTask) (fs : FS) (override : Bool)
    (hm : t0.has_mutex = false) (hmf : t0.storage.mutex_file = none)
    (haf : t0.bind_refs.storage.archive_file.existsIn fs = false)
    (hhalt : (halt_scan fs t0.bind_refs.storage.halt_files).snd = none)
    (hreq : (t0.bind_refs.storage.check_required_files fs).fst = true) :
    (t0.check_run_conditions fs override).outcome
        = GateOutcome.errored "AttributeError" ∧
    (t0.check_run_conditions fs override).task.job_run_check = true ∧
    GateEvent.createdMutex ∉ (t0.check_run_conditions fs override).events ∧
    (t0.check_run_conditions fs override).fs = fs ∧
    ∀ (strftime : String → Nat → String) (cfg : StorageConfig) (d : Nat)
      (f jd : String), (Storage.init strftime cfg d f jd).mutex_file = none := by
  have hmf2 : t0.bind_refs.storage.mutex_file = none := by
    simp only [BaseTask.bind_refs, hm, Bool.false_eq_true, if_false]
    split
    · simp [Storage.set_archive_file, hmf]
    · exact hmf
  have hb : (t0.bind_refs.storage.archive_file.existsIn fs && !override) = false := by
    rw [haf]; rfl
  rw [check_run_conditions_eq_tail t0 fs override hb]
  simp only [haf, Bool.false_eq_true, if_false]
  rw [gate_tail_eq_attr_error _ fs [GateEvent.checkedArchive] hhalt hreq hmf2]
  refine ⟨rfl, rfl, ?_, rfl, fun _ _ _ _ _ => rfl⟩
  intro hmem
  rcases List.mem_append.mp hmem with hm0 | hm3
  · rcases List.mem_append.mp hm0 with hm1 | hm2
    · simp at hm1
    · rcases halt_scan_events_shape _ _ _ hm2 with ⟨y, hy⟩; cases hy
  · simp at hm3

/-- A concrete task constructed without a mutex. -/
def taskNoMutex : BaseTask :=
  { task_name := "t", task_type := "g", storage := s0, job_run_check := false
    interactive := false, override := false, has_mutex := false, has_archive := true }

/-- Witness for C10: the concrete mutex-less task whose gate checks all
pass. -/
theorem claim_C10_none_mutex_crash_witness :
    taskNoMutex.has_mutex = false ∧
    taskNoMutex.storage.mutex_file = none ∧
    (taskNoMutex.check_run_conditions [] false).outcome
      = GateOutcome.errored "AttributeError" ∧
    (taskNoMutex.check_run_conditions [] false).task.job_run_check = true :=
  ⟨rfl, rfl,
   (claim_C10_none_mutex_crash taskNoMutex [] false rfl rfl (by decide)
      (by decide) (by decide)).1,
   (claim_C10_none_mutex_crash taskNoMutex [] false rfl rfl (by decide)
      (by decide) (by decide)).2.1⟩

end Observer
